import Mathlib

/- Verification of the Blender-AI-Agent task bridge.

   The development shallowly embeds:
   - the script sanitizer of src/server/app.py (function sanitize_script,
     lines 202-273) together with the tail of the /api/generate handler
     (lines 275-345), and
   - the executor and RPC gateway of src/agent/blender_agent.py
     (process_operations_main_thread lines 135-150, blender_timer
     lines 154-275, enqueue_ops lines 292-301, enqueue_script
     lines 308-318, OP_MAP lines 124-132).

   External effects (the bpy scene API, the file system, rendering and
   export) are modeled by oracle fields of explicit environment records:
   each fallible external step is an `Except String` value describing
   whether that step raised and with which message. -/

namespace BlenderBridge

/-! ## Python AST fragment walked by the sanitizer -/

/-- Fragment of the Python expression grammar that the Scanner of
sanitize_script inspects: names, attribute access, calls, and opaque
constants (literals and any other expression without child calls). -/
inductive PyExpr where
  | name (id : String)
  | attribute (value : PyExpr) (attr : String)
  | call (func : PyExpr) (args : List PyExpr)
  | const

/-- Statements relevant to the Scanner: plain imports (the list of alias
names, dotted), from-imports (the optional module, None for relative
imports), and expression statements.  All other statement forms have no
visitor of their own and only contribute their child expressions. -/
inductive PyStmt where
  | imprt (names : List String)
  | importFrom (module : Option String)
  | exprStmt (e : PyExpr)

/-- forbidden_calls set, app.py lines 208-220. -/
def FORBIDDEN_CALLS : List String :=
  ["eval", "exec", "compile", "open", "__import__", "run", "Popen", "system", "popen"]

/-- allowed_imports set, app.py line 226. -/
def ALLOWED_IMPORTS : List String := ["bpy", "math", "mathutils", "random"]

/-- suffix test on the underlying character lists, the meaning of the
Python str.endswith. -/
def strEndsWith (s post : String) : Bool :=
  List.isPrefixOf post.data.reverse s.data.reverse

/-- prefix test on the underlying character lists, the meaning of the
Python str.startswith. -/
def strStartsWith (s pre : String) : Bool :=
  List.isPrefixOf pre.data s.data

/-- the deny-list test of visit_Call, app.py lines 261-262:
full == bad or full.endswith("." + bad). -/
def isForbidden (full : String) : Bool :=
  FORBIDDEN_CALLS.any (fun bad => full == bad || strEndsWith full ("." ++ bad))

/-- join a list of name segments with dots, as ".".join does. -/
def dotted : List String → String
  | [] => ""
  | [x] => x
  | x :: xs => x ++ "." ++ dotted xs

/-- the parts-collection loop of visit_Call, app.py lines 251-258: walk down
an attribute chain collecting attribute segments; if the chain bottoms out
at a Name its id is included as the root, otherwise the root is dropped and
only the attribute segments remain.  Returned in root-to-leaf order,
matching reversed(parts). -/
def chainParts : PyExpr → List String
  | .name id => [id]
  | .attribute v attr => chainParts v ++ [attr]
  | _ => []

/-- the full callee name computed by visit_Call, app.py lines 245-258:
some id for a direct Name, the dotted chain for an Attribute (with the
root id only when the chain is rooted at a Name), and None otherwise. -/
def resolveFull : PyExpr → Option String
  | .name id => some id
  | .attribute v attr => some (dotted (chainParts (.attribute v attr)))
  | _ => none

/-- characters of a name up to the first dot. -/
def takeUntilDot : List Char → List Char
  | [] => []
  | c :: cs => if c = '.' then [] else c :: takeUntilDot cs

/-- first segment of a dotted module name, as name.split(".")[0]. -/
def rootModule (n : String) : String := ⟨takeUntilDot n.data⟩

/-- membership of the root segment in the import allow-list. -/
def allowedRoot (n : String) : Bool := ALLOWED_IMPORTS.contains (rootModule n)

/-- Scanner.visit_Import, app.py lines 228-234: the first alias whose root
is outside the allow-list overwrites the error; otherwise the error state
is left unchanged.  Child nodes are not visited. -/
def visit_Import (st : Option String) (names : List String) : Option String :=
  match names.find? (fun n => !(allowedRoot n)) with
  | some n => some ("import not allowed: " ++ n)
  | none => st

/-- Scanner.visit_ImportFrom, app.py lines 236-241: node.module (or the
empty string for relative imports) is checked by its root segment; note
the wording differs from the plain-import message. -/
def visit_ImportFrom (st : Option String) (module : Option String) : Option String :=
  let mod := module.getD ""
  if !(allowedRoot mod) then some ("from-import not allowed: " ++ mod) else st

mutual

/-- Scanner.visit_Call combined with NodeVisitor.generic_visit for nodes
without a dedicated visitor, app.py lines 243-267.  On a call whose
resolved name is truthy and matches the deny-list the error is overwritten
and the subtree below the call is not visited; otherwise the walk
continues into the callee expression and the arguments in order. -/
def visitExpr (st : Option String) (e : PyExpr) : Option String :=
  match e with
  | .name _ => st
  | .const => st
  | .attribute v _ => visitExpr st v
  | .call f args =>
    match resolveFull f with
    | some full =>
      if full != "" && isForbidden full then
        some ("forbidden call detected: " ++ full)
      else
        visitArgs (visitExpr st f) args
    | none => visitArgs (visitExpr st f) args
termination_by structural e

/-- walk a list of child expressions left to right, threading the error. -/
def visitArgs (st : Option String) (es : List PyExpr) : Option String :=
  match es with
  | [] => st
  | e :: rest => visitArgs (visitExpr st e) rest
termination_by structural es

end

/-- dispatch of the Scanner on one statement. -/
def visitStmt (st : Option String) : PyStmt → Option String
  | .imprt names => visit_Import st names
  | .importFrom m => visit_ImportFrom st m
  | .exprStmt e => visitExpr st e

/-- scanner.visit(ast.parse(code)) over a whole module, app.py line 270:
the walk always runs to the end of the module body, so a later flagged
construct overwrites the error recorded for an earlier one. -/
def runScanner (tree : List PyStmt) : Option String :=
  tree.foldl visitStmt none

/-- outcome of ast.parse: either the parsed module body or the exception
text of the parse failure. -/
inductive ParseResult where
  | ok (tree : List PyStmt)
  | err (detail : String)

/-- sanitize_script, app.py lines 202-273: a parse failure is reported as
a syntax error; otherwise the Scanner runs and its final error (if any)
is the rejection reason. -/
def sanitize_script (p : ParseResult) : Bool × Option String :=
  match p with
  | .err e => (false, some ("syntax error during parse: " ++ e))
  | .ok tree =>
    match runScanner tree with
    | some e => (false, some e)
    | none => (true, none)

/-! ## Claim-side predicates over the AST -/

mutual

/-- an expression contains a call whose statically resolved callee name is
truthy and matches the deny-list (the construct C1 quantifies over). -/
def exprHasForbiddenCall (e : PyExpr) : Bool :=
  match e with
  | .name _ => false
  | .const => false
  | .attribute v _ => exprHasForbiddenCall v
  | .call f args =>
    (match resolveFull f with
     | some full => full != "" && isForbidden full
     | none => false)
    || exprHasForbiddenCall f || argsHaveForbiddenCall args
termination_by structural e

/-- some expression of the list contains a flagged call. -/
def argsHaveForbiddenCall (es : List PyExpr) : Bool :=
  match es with
  | [] => false
  | e :: rest => exprHasForbiddenCall e || argsHaveForbiddenCall rest
termination_by structural es

end

/-- a statement contains a flagged call. -/
def stmtHasForbiddenCall : PyStmt → Bool
  | .exprStmt e => exprHasForbiddenCall e
  | _ => false

/-- a statement is an import or from-import whose root module is outside
the allow-list (the construct C9 quantifies over). -/
def stmtHasDisallowedImport : PyStmt → Bool
  | .imprt names => names.any (fun n => !(allowedRoot n))
  | .importFrom m => !(allowedRoot (m.getD ""))
  | .exprStmt _ => false

/-- the module body of the code text "import os\nos.system('ls')". -/
def osSystemModule : List PyStmt :=
  [.imprt ["os"],
   .exprStmt (.call (.attribute (.name "os") "system") [.const])]

/-- a module with a forbidden call followed by a disallowed import:
the code text "os.system('ls')\nimport sys". -/
def callThenImportModule : List PyStmt :=
  [.exprStmt (.call (.attribute (.name "os") "system") [.const]),
   .imprt ["sys"]]

/-! ## Generation state tracker and the tail of the generate handler -/

/-- LATEST_PREVIEW record, app.py lines 58-64. -/
structure GenState where
  status : String
  filename : Option String
  last_updated : Option Nat
  error : Option String
  exported_files : List String
deriving DecidableEq, Repr

/-- shape of the dict the agent returns over XML-RPC, as read by the
generate handler (fields status, preview, exported_files, error). -/
structure RpcDict where
  status : Option String
  preview : Option String
  exported_files : List String
  error : Option String
deriving DecidableEq, Repr

/-- the four exit points of the generate handler after sanitization,
app.py lines 275-345. -/
inductive GenOutcome where
  | rejected (reason : String)
  | rpcFailed (details : String)
  | done (previewName : String) (exported : List String)
  | blenderError
deriving DecidableEq, Repr

/-- HTTP status code attached to each exit point of the handler. -/
def httpStatus : GenOutcome → Nat
  | .rejected _ => 400
  | .rpcFailed _ => 500
  | .done _ _ => 200
  | .blenderError => 500

/-- os.path.basename for slash-separated paths: the characters after the
last slash. -/
def basename (p : String) : String :=
  ⟨p.data.foldl (fun acc c => if c = '/' then [] else acc ++ [c]) []⟩

/-- tail of the /api/generate handler from the sanitizer call onward,
app.py lines 275-345: on rejection update the tracker to error and answer
400 without contacting the agent; otherwise mark the tracker running,
send the script (the Except argument is the transport outcome of the
XML-RPC call), and fold the agent answer into the tracker.  The returned
Bool records whether process_script was invoked. -/
def generate_tail (p : ParseResult) (st : GenState) (now : Nat)
    (rpc : Except String RpcDict) : GenState × GenOutcome × Bool :=
  match sanitize_script p with
  | (false, reason) =>
    let r := reason.getD ""
    ({ st with status := "error", error := some r, last_updated := some now },
     .rejected r, false)
  | (true, _) =>
    let st1 := { st with status := "running", error := none, last_updated := some now }
    match rpc with
    | .error e =>
      ({ st1 with status := "error", error := some e, last_updated := some now },
       .rpcFailed e, true)
    | .ok resp =>
      if resp.status == some "ok" && resp.preview.getD "" != "" then
        let pname := basename (resp.preview.getD "")
        ({ st1 with
             status := "done"
             filename := some pname
             last_updated := some now
             error := none
             exported_files := resp.exported_files },
         .done pname resp.exported_files, true)
      else
        ({ st1 with
             status := "error"
             error := some "blender error response"
             last_updated := some now },
         .blenderError, true)

/-! ## The agent: capability registry and batch execution -/

/-- values crossing the operation interface: handler results are object
names, paths, or (flag, message) pairs. -/
inductive PyValue where
  | str (s : String)
  | int (n : Int)
  | flagMsg (flag : Bool) (msg : String)
  | unit
deriving DecidableEq, Repr

/-- params mapping of one operation. -/
abbrev Params := List (String × PyValue)

/-- one entry of an operation batch. -/
structure Operation where
  op : String
  params : Params
deriving DecidableEq, Repr

/-- an operation batch as received by process_operations. -/
structure Batch where
  operations : List Operation
deriving DecidableEq, Repr

/-- OP_MAP, blender_agent.py lines 124-132: registered operation names
with their second tuple component.  The handlers themselves are external
bpy capabilities; their behavior is supplied by a HandlerOracle. -/
def OP_MAP : List (String × Bool) :=
  [("reset", false), ("add_box", true), ("add_cylinder", true), ("translate", true),
   ("rotate", true), ("boolean_diff", true), ("export", true)]

/-- oracle giving the outcome of invoking a registered handler: a value,
or the text of the exception it raised. -/
abbrev HandlerOracle := String → Params → Except String PyValue

/-- per-operation result dict {"op", "status", "result"|"msg"}. -/
inductive OpResult where
  | ok (op : String) (result : PyValue)
  | err (op : String) (msg : String)
deriving DecidableEq, Repr

/-- loop body of process_operations_main_thread, blender_agent.py lines
136-149: results are appended in iteration order; an unknown name yields
the unsupported-op error for that entry and the loop continues; a handler
exception is caught per entry. -/
def opsLoop (hexec : HandlerOracle) : List Operation → List OpResult → List OpResult
  | [], acc => acc
  | o :: rest, acc =>
    match OP_MAP.find? (fun entry => entry.1 == o.op) with
    | none => opsLoop hexec rest (acc ++ [.err o.op "unsupported op"])
    | some _ =>
      match hexec o.op o.params with
      | .ok v => opsLoop hexec rest (acc ++ [.ok o.op v])
      | .error e => opsLoop hexec rest (acc ++ [.err o.op e])

/-- process_operations_main_thread, blender_agent.py lines 135-150. -/
def process_operations_main_thread (hexec : HandlerOracle) (b : Batch) : List OpResult :=
  opsLoop hexec b.operations []

/-! ## The agent: script execution on the privileged thread -/

/-- the output directory constant of blender_agent.py line 28. -/
def OUTPUT_DIR : String := "/opt/app/output"

/-- key set of the exec_env dict injected into script execution,
blender_agent.py lines 191-196. -/
def EXEC_ENV_NAMES : List String := ["bpy", "os", "OUTPUT_DIR", "render_and_save"]

/-- environment of one script task: the outcome of every external step the
script branch of blender_timer performs.  execOutcome covers the bpy
availability check and exec of the script; listing is os.listdir of the
output directory paired with each file modification time (or the exception
it raised); the remaining fields are the render and export calls. -/
structure ScriptEnv where
  execOutcome : Except String Unit
  listing : Except String (List (String × Nat))
  renderOutcome : Except String Unit
  gltfOutcome : Except String Unit
  objOutcome : Except String Unit
  now : Nat

/-- responses placed on the response queue by blender_timer. -/
inductive AgentResponse where
  | opsResults (rs : List OpResult)
  | scriptOk (preview : String) (exported_files : List String)
  | scriptErr (error : String)
  | errDict (error : String)
deriving DecidableEq, Repr

/-- the preview reference carried by a response, if any. -/
def responseArtifact : AgentResponse → Option String
  | .scriptOk p _ => some p
  | _ => none

/-- preview-file filter of blender_agent.py lines 208-213. -/
def isPreviewFile (f : String) : Bool :=
  strStartsWith f "preview_" &&
    (strEndsWith f ".png" || strEndsWith f ".jpg" || strEndsWith f ".jpeg")

/-- head of the mtime-descending stable sort of lines 216-219: the first
file carrying the maximal modification time. -/
def selectNewest : List (String × Nat) → Option (String × Nat)
  | [] => none
  | f :: fs => some (fs.foldl (fun best g => if g.2 > best.2 then g else best) f)

/-- os.path.join for the fixed absolute output directory. -/
def pathJoin (d f : String) : String := d ++ "/" ++ f

/-- the preview-locating block of blender_agent.py lines 206-222: a listing
failure is swallowed and treated as no preview found. -/
def locatePreview (listing : Except String (List (String × Nat))) : Option String :=
  match listing with
  | .error _ => none
  | .ok files =>
    match selectNewest (files.filter (fun f => isPreviewFile f.1)) with
    | none => none
    | some f => some (pathJoin OUTPUT_DIR f.1)

/-- observable trace of one script task: the response pushed, the preview
found in the output directory (if any), and which of the synthesis and
export steps were reached. -/
structure ScriptTrace where
  response : AgentResponse
  locatedPreview : Option String
  attemptedSynthesis : Bool
  attemptedGltf : Bool
  attemptedObj : Bool
deriving Repr

/-- the export block of blender_agent.py lines 229-250: each format is
attempted in its own try, a failure contributes nothing, a success appends
the basename of the written file. -/
def exportedList (env : ScriptEnv) : List String :=
  (match env.gltfOutcome with
   | .ok _ => ["model_" ++ toString env.now ++ ".gltf"]
   | .error _ => []) ++
  (match env.objOutcome with
   | .ok _ => ["model_" ++ toString env.now ++ ".obj"]
   | .error _ => [])

/-- the tail of the success path, blender_agent.py lines 229-259: both
exports are attempted and the ok response is pushed. -/
def afterPreview (env : ScriptEnv) (preview : String) (located : Option String)
    (synthesized : Bool) : ScriptTrace :=
  { response := .scriptOk preview (exportedList env),
    locatedPreview := located, attemptedSynthesis := synthesized,
    attemptedGltf := true, attemptedObj := true }

/-- the script branch of blender_timer, blender_agent.py lines 173-265:
a raise before or during exec skips every post-processing step and pushes
the error response; otherwise an existing preview is looked up, one is
rendered when none is found (a raise there also aborts into the error
response), then both exports are attempted and the ok response is pushed. -/
def processScriptTask (env : ScriptEnv) : ScriptTrace :=
  match env.execOutcome with
  | .error msg =>
    { response := .scriptErr msg, locatedPreview := none, attemptedSynthesis := false,
      attemptedGltf := false, attemptedObj := false }
  | .ok _ =>
    match locatePreview env.listing with
    | some p => afterPreview env p (some p) false
    | none =>
      match env.renderOutcome with
      | .error msg =>
        { response := .scriptErr msg, locatedPreview := none, attemptedSynthesis := true,
          attemptedGltf := false, attemptedObj := false }
      | .ok _ =>
        afterPreview env (pathJoin OUTPUT_DIR ("preview_" ++ toString env.now ++ ".png"))
          none true

/-! ## The executor tick -/

/-- items of the task queue, blender_agent.py lines 293 and 309; other
covers any item whose type tag is neither ops nor script. -/
inductive TaskItem where
  | ops (b : Batch)
  | script (text : String)
  | other

/-- blender_timer, blender_agent.py lines 154-275, as a function of the
queue and the environments of the popped task: returns the remaining
queue, the response pushed (none on an idle tick), and the rescheduling
interval in seconds, which is 0.3 on every path. -/
def blender_timer (q : List TaskItem) (hexec : HandlerOracle) (env : ScriptEnv) :
    List TaskItem × Option AgentResponse × ℚ :=
  match q with
  | [] => ([], none, 3 / 10)
  | item :: rest =>
    match item with
    | .ops b => (rest, some (.opsResults (process_operations_main_thread hexec b)), 3 / 10)
    | .script _ => (rest, some (processScriptTask env).response, 3 / 10)
    | .other => (rest, some (.errDict "unknown item type"), 3 / 10)

/-! ## The RPC gateway -/

/-- sleep interval of the gateway poll loops in centiseconds,
blender_agent.py lines 300 and 317 (time.sleep(0.05)). -/
def POLL_SLEEP_CENTIS : Nat := 5

/-- batch-call timeout in seconds, blender_agent.py line 295. -/
def OPS_TIMEOUT_SECONDS : Nat := 60

/-- script-call timeout in seconds, blender_agent.py line 312. -/
def SCRIPT_TIMEOUT_SECONDS : Nat := 300

/-- number of polls fitting in a timeout budget at the fixed sleep. -/
def pollBudget (timeoutSeconds : Nat) : Nat :=
  timeoutSeconds * 100 / POLL_SLEEP_CENTIS

/-- the sleep-poll loop of enqueue_ops and enqueue_script: avail i is what
a non-blocking read of the response queue would return at the i-th poll;
the loop ends at the first available response or when the budget of polls
is exhausted. -/
def poll_loop (avail : Nat → Option AgentResponse) : Nat → Nat → Option AgentResponse
  | _, 0 => none
  | i, fuel + 1 =>
    match avail i with
    | some r => some r
    | none => poll_loop avail (i + 1) fuel

/-- value returned to the XML-RPC caller: a drained response or the
structured dict {"error": "timeout"}. -/
inductive RpcReturn where
  | response (r : AgentResponse)
  | timeoutError
deriving DecidableEq, Repr

/-- enqueue_ops, blender_agent.py lines 292-301: push the ops task, then
poll for up to the 60 second budget. -/
def enqueue_ops (b : Batch) (avail : Nat → Option AgentResponse) : TaskItem × RpcReturn :=
  (.ops b,
   match poll_loop avail 0 (pollBudget OPS_TIMEOUT_SECONDS) with
   | some r => .response r
   | none => .timeoutError)

/-- enqueue_script, blender_agent.py lines 308-318: push the script task,
then poll for up to the 300 second budget. -/
def enqueue_script (s : String) (avail : Nat → Option AgentResponse) :
    TaskItem × RpcReturn :=
  (.script s,
   match poll_loop avail 0 (pollBudget SCRIPT_TIMEOUT_SECONDS) with
   | some r => .response r
   | none => .timeoutError)

/-! ## Helper lemmas about the scanner walk -/

/-- a concrete idle tracker state used to instantiate theorems. -/
def idleState : GenState :=
  { status := "idle", filename := none, last_updated := none, error := none,
    exported_files := [] }

mutual

/-- when the walk of one expression ends with no error recorded, the walk
started with no error and the expression contains no flagged call. -/
theorem visitExpr_none_inv : ∀ (st : Option String) (e : PyExpr),
    visitExpr st e = none → st = none ∧ exprHasForbiddenCall e = false
  | st, .name _, h => ⟨h, rfl⟩
  | st, .const, h => ⟨h, rfl⟩
  | st, .attribute v a, h => by
    have ih := visitExpr_none_inv st v (by simpa [visitExpr] using h)
    simpa [exprHasForbiddenCall] using ih
  | st, .call f args, h => by
    cases hr : resolveFull f with
    | some full =>
      by_cases hc : (full != "" && isForbidden full) = true
      · simp [visitExpr, hr, hc] at h
      · simp only [visitExpr, hr, hc, if_false] at h
        have ih2 := visitArgs_none_inv (visitExpr st f) args h
        have ih1 := visitExpr_none_inv st f ih2.1
        refine ⟨ih1.1, ?_⟩
        simp only [exprHasForbiddenCall, hr, ih1.2, ih2.2, Bool.or_false]
        simpa using hc
    | none =>
      simp only [visitExpr, hr] at h
      have ih2 := visitArgs_none_inv (visitExpr st f) args h
      have ih1 := visitExpr_none_inv st f ih2.1
      refine ⟨ih1.1, ?_⟩
      simp [exprHasForbiddenCall, hr, ih1.2, ih2.2]

/-- the same, for a list of child expressions. -/
theorem visitArgs_none_inv : ∀ (st : Option String) (es : List PyExpr),
    visitArgs st es = none → st = none ∧ argsHaveForbiddenCall es = false
  | st, [], h => ⟨h, rfl⟩
  | st, e :: es, h => by
    simp only [visitArgs] at h
    have ih2 := visitArgs_none_inv (visitExpr st e) es h
    have ih1 := visitExpr_none_inv st e ih2.1
    exact ⟨ih1.1, by simp [argsHaveForbiddenCall, ih1.2, ih2.2]⟩

end

/-- when the walk of one statement ends with no error recorded, the walk
started with no error and the statement is flagged by neither rule. -/
theorem visitStmt_none_inv (st : Option String) (s : PyStmt)
    (h : visitStmt st s = none) :
    st = none ∧ stmtHasForbiddenCall s = false ∧ stmtHasDisallowedImport s = false := by
  cases s with
  | imprt names =>
    simp only [visitStmt, visit_Import] at h
    cases hf : names.find? (fun n => !(allowedRoot n)) with
    | some n => rw [hf] at h; exact absurd h (by simp)
    | none =>
      rw [hf] at h
      refine ⟨h, rfl, ?_⟩
      simp only [stmtHasDisallowedImport]
      rw [List.find?_eq_none] at hf
      simp only [List.any_eq_false]
      intro n hn
      simpa using hf n hn
  | importFrom m =>
    simp only [visitStmt, visit_ImportFrom] at h
    by_cases ha : allowedRoot (m.getD "") = true
    · refine ⟨by simpa [ha] using h, rfl, by simp [stmtHasDisallowedImport, ha]⟩
    · simp [ha] at h
  | exprStmt e =>
    have := visitExpr_none_inv st e h
    exact ⟨this.1, by simpa [stmtHasForbiddenCall] using this.2, rfl⟩

/-- a statement flagged by either rule leaves the walk with an error,
whatever the incoming state. -/
theorem visitStmt_isSome_of_flag (st : Option String) (s : PyStmt)
    (h : (stmtHasForbiddenCall s || stmtHasDisallowedImport s) = true) :
    (visitStmt st s).isSome := by
  cases hres : visitStmt st s with
  | some _ => simp
  | none =>
    have inv := visitStmt_none_inv st s hres
    rw [inv.2.1, inv.2.2] at h
    simp at h

/-- an error, once recorded, survives the walk of any further statement. -/
theorem visitStmt_isSome_mono (st : Option String) (s : PyStmt)
    (h : st.isSome) : (visitStmt st s).isSome := by
  cases hres : visitStmt st s with
  | some _ => simp
  | none =>
    have inv := visitStmt_none_inv st s hres
    rw [inv.1] at h
    simp at h

/-- an error, once recorded, survives the rest of the module walk. -/
theorem foldl_visitStmt_isSome (tree : List PyStmt) (st : Option String)
    (h : st.isSome) : (tree.foldl visitStmt st).isSome := by
  induction tree generalizing st with
  | nil => simpa using h
  | cons s rest ih =>
    simp only [List.foldl_cons]
    exact ih (visitStmt st s) (visitStmt_isSome_mono st s h)

/-- a module-body fold starting anywhere ends with an error when some
statement is flagged. -/
theorem foldl_visitStmt_isSome_of_any (tree : List PyStmt) :
    ∀ st : Option String,
      tree.any (fun s => stmtHasForbiddenCall s || stmtHasDisallowedImport s) = true →
      (tree.foldl visitStmt st).isSome := by
  induction tree with
  | nil => intro st h; simp at h
  | cons s rest ih =>
    intro st h
    simp only [List.foldl_cons]
    cases hb : (stmtHasForbiddenCall s || stmtHasDisallowedImport s) with
    | true => exact foldl_visitStmt_isSome rest _ (visitStmt_isSome_of_flag st s hb)
    | false =>
      rw [List.any_cons, hb, Bool.false_or] at h
      exact ih _ h

/-- a module containing any flagged statement leaves the scanner with an
error recorded. -/
theorem runScanner_isSome (tree : List PyStmt)
    (h : tree.any (fun s => stmtHasForbiddenCall s || stmtHasDisallowedImport s) = true) :
    (runScanner tree).isSome :=
  foldl_visitStmt_isSome_of_any tree none h

/-- a module containing any flagged statement is rejected. -/
theorem sanitize_rejects_of_flag (tree : List PyStmt)
    (h : tree.any (fun s => stmtHasForbiddenCall s || stmtHasDisallowedImport s) = true) :
    (sanitize_script (.ok tree)).1 = false := by
  have hs := runScanner_isSome tree h
  cases hres : runScanner tree with
  | none => rw [hres] at hs; simp at hs
  | some e => simp [sanitize_script, hres]

/-- the two fixed reason prefixes are incompatible, whatever follows each. -/
theorem syntax_reason_ne_forbidden (d n : String) :
    "syntax error during parse: " ++ d ≠ "forbidden call detected: " ++ n := by
  intro h
  have h2 := congrArg String.data h
  rw [String.data_append, String.data_append] at h2
  have e1 : ("syntax error during parse: ").data
      = 's' :: ("yntax error during parse: ").data := rfl
  have e2 : ("forbidden call detected: ").data
      = 'f' :: ("orbidden call detected: ").data := rfl
  rw [e1, e2, List.cons_append, List.cons_append] at h2
  injection h2 with hhead _
  exact absurd hhead (by decide)

/-- a run of the poll loop over a queue that never offers a response
drains nothing. -/
theorem poll_loop_none (avail : Nat → Option AgentResponse)
    (h : ∀ i, avail i = none) : ∀ (fuel i : Nat), poll_loop avail i fuel = none := by
  intro fuel
  induction fuel with
  | zero => intro i; rfl
  | succ n ih => intro i; simp only [poll_loop, h i]; exact ih (i + 1)

/-- the batch loop appends one result per operation in order. -/
theorem opsLoop_eq_map (hexec : HandlerOracle) (l : List Operation)
    (acc : List OpResult) :
    opsLoop hexec l acc = acc ++ l.map (fun o =>
      match OP_MAP.find? (fun entry => entry.1 == o.op) with
      | none => OpResult.err o.op "unsupported op"
      | some _ =>
        match hexec o.op o.params with
        | .ok v => OpResult.ok o.op v
        | .error e => OpResult.err o.op e) := by
  induction l generalizing acc with
  | nil => simp [opsLoop]
  | cons o rest ih =>
    cases hfind : OP_MAP.find? (fun entry => entry.1 == o.op) with
    | none => simp [opsLoop, hfind, ih]
    | some entry =>
      cases hex : hexec o.op o.params with
      | ok v => simp [opsLoop, hfind, hex, ih]
      | error e => simp [opsLoop, hfind, hex, ih]

/-! ## Claim theorems -/

/-- C1 (amended): a code text whose syntax tree contains a call with a
statically resolvable deny-listed callee is always rejected by the
sanitizer; the reason is the forbidden-call message whenever the forbidden
call is the last flagged construct of the walk (a disallowed import later
in the module overwrites it).  The concrete scenario holds as stated: the
text "import os" followed by a call of os.system is rejected with reason
"forbidden call detected: os.system", and the generate handler never
invokes process_script for it. -/
theorem sanitizer_rejects_forbidden_calls :
    (∀ tree : List PyStmt, tree.any stmtHasForbiddenCall = true →
      (sanitize_script (.ok tree)).1 = false) ∧
    sanitize_script (.ok osSystemModule) =
      (false, some "forbidden call detected: os.system") ∧
    (∀ (st : GenState) (now : Nat) (rpc : Except String RpcDict),
      (generate_tail (.ok osSystemModule) st now rpc).2.2 = false ∧
      (generate_tail (.ok osSystemModule) st now rpc).2.1 =
        .rejected "forbidden call detected: os.system") := by
  have hos : sanitize_script (.ok osSystemModule) =
      (false, some "forbidden call detected: os.system") := by decide
  refine ⟨?_, hos, ?_⟩
  · intro tree h
    refine sanitize_rejects_of_flag tree ?_
    rw [List.any_eq_true] at h ⊢
    rcases h with ⟨s, hs, hflag⟩
    exact ⟨s, hs, by simp [hflag]⟩
  · intro st now rpc
    constructor <;> simp [generate_tail, hos]

/-- C1 witness: a tree with a forbidden call is rejected, and for the
concrete os.system scenario the handler does not send the script. -/
theorem sanitizer_rejects_forbidden_calls_witness :
    (sanitize_script (.ok osSystemModule)).1 = false ∧
    (generate_tail (.ok osSystemModule) idleState 5 (.error "agent down")).2.2 = false :=
  ⟨sanitizer_rejects_forbidden_calls.1 osSystemModule (by decide),
   (sanitizer_rejects_forbidden_calls.2.2 idleState 5 (.error "agent down")).1⟩

/-- C1 counterexample: the code text with the call os.system followed by
the statement importing sys contains a resolvable forbidden call, yet the
sanitizer reports the later disallowed import, not a forbidden-call
reason. -/
theorem sanitizer_reason_overwritten_counterexample :
    callThenImportModule.any stmtHasForbiddenCall = true ∧
    sanitize_script (.ok callThenImportModule) =
      (false, some "import not allowed: sys") ∧
    strStartsWith "import not allowed: sys" "forbidden call detected: " = false :=
  ⟨by decide, by decide, by decide⟩

/-- C2: when execution of a raw-code task raises, the executor pushes the
status-error response carrying the exception message, reaches none of the
post-processing steps (no preview located, none synthesized, no export
attempted), and the response carries no artifact reference. -/
theorem script_error_skips_postprocessing :
    ∀ (env : ScriptEnv) (msg : String), env.execOutcome = .error msg →
      processScriptTask env =
        { response := .scriptErr msg
          locatedPreview := none
          attemptedSynthesis := false
          attemptedGltf := false
          attemptedObj := false } ∧
      responseArtifact (processScriptTask env).response = none := by
  intro env msg h
  constructor <;> simp [processScriptTask, h, responseArtifact]

/-- a script environment whose execution raises. -/
def execFailEnv : ScriptEnv :=
  { execOutcome := .error "boom", listing := .ok [], renderOutcome := .ok ()
    gltfOutcome := .ok (), objOutcome := .ok (), now := 0 }

/-- C2 witness: the raising environment produces exactly the error trace. -/
theorem script_error_skips_postprocessing_witness :
    processScriptTask execFailEnv =
      { response := .scriptErr "boom"
        locatedPreview := none
        attemptedSynthesis := false
        attemptedGltf := false
        attemptedObj := false } ∧
    responseArtifact (processScriptTask execFailEnv).response = none :=
  script_error_skips_postprocessing execFailEnv "boom" rfl

/-- C3: an operation batch yields exactly one result per listed operation
in submitted order; an unknown name yields the unsupported-op error for
its own entry only, a handler exception yields an error with the
exception text, and a handler success wraps the returned value; in
particular a batch of one unknown op followed by one valid op returns
exactly the two corresponding results. -/
theorem batch_results_per_operation :
    (∀ (hexec : HandlerOracle) (b : Batch),
      process_operations_main_thread hexec b =
        b.operations.map (fun o =>
          match OP_MAP.find? (fun entry => entry.1 == o.op) with
          | none => OpResult.err o.op "unsupported op"
          | some _ =>
            match hexec o.op o.params with
            | .ok v => OpResult.ok o.op v
            | .error e => OpResult.err o.op e)) ∧
    (∀ (hexec : HandlerOracle) (b : Batch),
      (process_operations_main_thread hexec b).length = b.operations.length) ∧
    (∀ (hexec : HandlerOracle) (p1 p2 : Params) (v : PyValue),
      hexec "add_box" p2 = .ok v →
      process_operations_main_thread hexec
          { operations := [{ op := "frobnicate", params := p1 },
                           { op := "add_box", params := p2 }] } =
        [.err "frobnicate" "unsupported op", .ok "add_box" v]) := by
  have hmap : ∀ (hexec : HandlerOracle) (b : Batch),
      process_operations_main_thread hexec b =
        b.operations.map (fun o =>
          match OP_MAP.find? (fun entry => entry.1 == o.op) with
          | none => OpResult.err o.op "unsupported op"
          | some _ =>
            match hexec o.op o.params with
            | .ok v => OpResult.ok o.op v
            | .error e => OpResult.err o.op e) := by
    intro hexec b
    simpa using opsLoop_eq_map hexec b.operations []
  refine ⟨hmap, ?_, ?_⟩
  · intro hexec b
    rw [hmap hexec b, List.length_map]
  · intro hexec p1 p2 v hv
    rw [hmap]
    simp [OP_MAP, hv]

/-- C3 witness: concrete oracle and batch exercising the map shape, the
length equation, and the unknown-then-valid scenario. -/
theorem batch_results_per_operation_witness :
    process_operations_main_thread
        (fun n _ => if n == "add_box" then .ok (.str "B1") else .error "nope")
        { operations := [{ op := "frobnicate", params := [] },
                         { op := "add_box", params := [] }] } =
      [.err "frobnicate" "unsupported op", .ok "add_box" (.str "B1")] :=
  batch_results_per_operation.2.2
    (fun n _ => if n == "add_box" then .ok (.str "B1") else .error "nope")
    [] [] (.str "B1") rfl

/-- C4: with no response ever available, process_operations returns the
structured timeout error after its 60 second budget and process_script
after its 300 second budget; the batch budget is strictly shorter, and in
both cases the timeout is an ordinary return value of the call. -/
theorem gateway_timeouts :
    ∀ (b : Batch) (s : String) (availB availS : Nat → Option AgentResponse),
      (∀ i, availB i = none) → (∀ i, availS i = none) →
      (enqueue_ops b availB).2 = .timeoutError ∧
      (enqueue_script s availS).2 = .timeoutError ∧
      OPS_TIMEOUT_SECONDS = 60 ∧ SCRIPT_TIMEOUT_SECONDS = 300 ∧
      OPS_TIMEOUT_SECONDS < SCRIPT_TIMEOUT_SECONDS := by
  intro b s availB availS hB hS
  refine ⟨?_, ?_, rfl, rfl, by decide⟩
  · simp [enqueue_ops, poll_loop_none availB hB]
  · simp [enqueue_script, poll_loop_none availS hS]

/-- C4 witness: the empty availability function forces both timeouts. -/
theorem gateway_timeouts_witness :
    (enqueue_ops { operations := [] } (fun _ => none)).2 = .timeoutError ∧
    (enqueue_script "" (fun _ => none)).2 = .timeoutError ∧
    OPS_TIMEOUT_SECONDS = 60 ∧ SCRIPT_TIMEOUT_SECONDS = 300 ∧
    OPS_TIMEOUT_SECONDS < SCRIPT_TIMEOUT_SECONDS :=
  gateway_timeouts { operations := [] } "" (fun _ => none) (fun _ => none)
    (fun _ => rfl) (fun _ => rfl)

/-- C5 counterexample: add_box is a Capability Registry name, yet it is
not among the names injected into script execution, so the injected
namespace does not consist of the registry symbols plus a helper. -/
theorem exec_namespace_missing_registry_symbol :
    (OP_MAP.map Prod.fst).contains "add_box" = true ∧
    EXEC_ENV_NAMES.contains "add_box" = false :=
  ⟨by decide, by decide⟩

/-- C5 (amended): the already-sanitized code runs against the injected
four-name namespace, the engine module bpy, the os module, the output
directory constant and the render helper, rather than the ambient global
environment; no Capability Registry handler name is injected. -/
theorem exec_namespace_contents :
    EXEC_ENV_NAMES = ["bpy", "os", "OUTPUT_DIR", "render_and_save"] ∧
    EXEC_ENV_NAMES.contains "render_and_save" = true ∧
    (OP_MAP.map Prod.fst).all (fun n => !(EXEC_ENV_NAMES.contains n)) = true :=
  ⟨rfl, by decide, by decide⟩

/-- C6: a parse failure is rejected with the syntax-error reason built
from the parse detail, and that reason can never coincide with a
forbidden-call reason, whatever the text contained. -/
theorem parse_failure_syntax_reason :
    ∀ detail : String,
      sanitize_script (.err detail) =
        (false, some ("syntax error during parse: " ++ detail)) ∧
      ∀ n : String,
        "syntax error during parse: " ++ detail ≠ "forbidden call detected: " ++ n :=
  fun detail => ⟨rfl, fun n => syntax_reason_ne_forbidden detail n⟩

/-- a script environment that executes cleanly, finds no preview, and
whose synthesis render raises. -/
def renderFailEnv : ScriptEnv :=
  { execOutcome := .ok (), listing := .ok [], renderOutcome := .error "render failed"
    gltfOutcome := .ok (), objOutcome := .ok (), now := 0 }

/-- C7 counterexample: a task that executes without raising, has no
existing preview, and whose synthesis render raises pushes an error
response and attempts no export, so the promised ok response with a
preview artifact does not appear. -/
theorem preview_synthesis_failure_counterexample :
    renderFailEnv.execOutcome = .ok () ∧
    (processScriptTask renderFailEnv).response = .scriptErr "render failed" ∧
    (processScriptTask renderFailEnv).attemptedGltf = false ∧
    (processScriptTask renderFailEnv).attemptedObj = false :=
  ⟨rfl, rfl, rfl, rfl⟩

/-- C7 (amended): for a raw-code task that executes without raising, the
executor locates an existing preview or, if none exists, synthesizes
exactly one, provided the synthesis render itself does not raise (if it
does, an error response is pushed and no export is attempted); it then
attempts both export formats independently, a failure of either being
skipped without affecting the other, and pushes the ok response carrying
the preview and the export names actually produced. -/
theorem script_success_postprocessing :
    ∀ env : ScriptEnv, env.execOutcome = .ok () →
      (locatePreview env.listing = none → env.renderOutcome = .ok ()) →
      processScriptTask env =
        { response := .scriptOk
            ((locatePreview env.listing).getD
              (pathJoin OUTPUT_DIR ("preview_" ++ toString env.now ++ ".png")))
            (exportedList env)
          locatedPreview := locatePreview env.listing
          attemptedSynthesis := (locatePreview env.listing).isNone
          attemptedGltf := true
          attemptedObj := true } ∧
      (env.gltfOutcome = .ok () → env.objOutcome = .ok () →
        exportedList env = ["model_" ++ toString env.now ++ ".gltf",
                            "model_" ++ toString env.now ++ ".obj"]) ∧
      (∀ eg, env.gltfOutcome = .error eg → env.objOutcome = .ok () →
        exportedList env = ["model_" ++ toString env.now ++ ".obj"]) := by
  intro env hexec hsynth
  refine ⟨?_, ?_, ?_⟩
  · cases hloc : locatePreview env.listing with
    | some p => simp [processScriptTask, hexec, hloc, afterPreview]
    | none =>
      have hrender := hsynth hloc
      simp [processScriptTask, hexec, hloc, hrender, afterPreview]
  · intro hg ho; simp [exportedList, hg, ho]
  · intro eg hg ho; simp [exportedList, hg, ho]

/-- a script environment where every external step succeeds and the
output directory is empty. -/
def cleanRunEnv : ScriptEnv :=
  { execOutcome := .ok (), listing := .ok [], renderOutcome := .ok ()
    gltfOutcome := .ok (), objOutcome := .ok (), now := 0 }

/-- C7 witness: the clean run synthesizes the preview and produces both
exports. -/
theorem script_success_postprocessing_witness :
    processScriptTask cleanRunEnv =
      { response := .scriptOk "/opt/app/output/preview_0.png"
          ["model_0.gltf", "model_0.obj"]
        locatedPreview := none
        attemptedSynthesis := true
        attemptedGltf := true
        attemptedObj := true } :=
  (script_success_postprocessing cleanRunEnv rfl (fun _ => rfl)).1

/-- C8: every executor tick returns the fixed 0.3 second rescheduling
interval, pops at most the head task (nothing on an idle tick), and
pushes exactly one response when and only when a task was popped. -/
theorem executor_tick_total :
    ∀ (q : List TaskItem) (hexec : HandlerOracle) (env : ScriptEnv),
      (blender_timer q hexec env).2.2 = 3 / 10 ∧
      (blender_timer q hexec env).1 = q.tail ∧
      (blender_timer q hexec env).2.1.isSome = !q.isEmpty := by
  intro q hexec env
  cases q with
  | nil => exact ⟨rfl, rfl, rfl⟩
  | cons item rest => cases item <;> exact ⟨rfl, rfl, rfl⟩

/-- C9 counterexample: a from-import outside the allow-list is rejected
with the wording "from-import not allowed", not the plain-import wording
the claim asserts for both statement forms. -/
theorem from_import_wording_counterexample :
    sanitize_script (.ok [.importFrom (some "os")]) =
      (false, some "from-import not allowed: os") ∧
    "from-import not allowed: os" ≠ "import not allowed: os" :=
  ⟨by decide, by decide⟩

/-- C9 (amended): any import or from-import statement whose root module
is outside the fixed allow-list causes rejection; a plain import is
reported as "import not allowed: <name>" while a from-import is reported
as "from-import not allowed: <module>". -/
theorem disallowed_import_rejected :
    (∀ tree : List PyStmt, tree.any stmtHasDisallowedImport = true →
      (sanitize_script (.ok tree)).1 = false) ∧
    (∀ n : String, allowedRoot n = false →
      sanitize_script (.ok [.imprt [n]]) =
        (false, some ("import not allowed: " ++ n))) ∧
    (∀ m : String, allowedRoot m = false →
      sanitize_script (.ok [.importFrom (some m)]) =
        (false, some ("from-import not allowed: " ++ m))) := by
  refine ⟨?_, ?_, ?_⟩
  · intro tree h
    refine sanitize_rejects_of_flag tree ?_
    rw [List.any_eq_true] at h ⊢
    rcases h with ⟨s, hs, hflag⟩
    exact ⟨s, hs, by simp [hflag]⟩
  · intro n h
    simp [sanitize_script, runScanner, visitStmt, visit_Import, List.find?, h]
  · intro m h
    simp [sanitize_script, runScanner, visitStmt, visit_ImportFrom, h]

/-- C9 witness: concrete disallowed imports of both statement forms. -/
theorem disallowed_import_rejected_witness :
    (sanitize_script (.ok [.imprt ["subprocess"]])).1 = false ∧
    sanitize_script (.ok [.imprt ["os"]]) = (false, some "import not allowed: os") ∧
    sanitize_script (.ok [.importFrom (some "subprocess")]) =
      (false, some "from-import not allowed: subprocess") :=
  ⟨disallowed_import_rejected.1 [.imprt ["subprocess"]] (by decide),
   disallowed_import_rejected.2.1 "os" (by decide),
   disallowed_import_rejected.2.2 "subprocess" (by decide)⟩

/-- C10: when the sanitizer rejects the post-processed script, the
generate handler answers HTTP 400 carrying the rejection reason, never
invokes process_script, and still writes status error, the reason, and a
fresh timestamp into the process-wide state tracker. -/
theorem generate_rejection_behavior :
    ∀ (p : ParseResult) (st : GenState) (now : Nat) (rpc : Except String RpcDict)
      (reason : String), sanitize_script p = (false, some reason) →
      generate_tail p st now rpc =
        ({ st with status := "error", error := some reason, last_updated := some now },
         .rejected reason, false) ∧
      httpStatus (.rejected reason) = 400 := by
  intro p st now rpc reason h
  refine ⟨?_, rfl⟩
  simp [generate_tail, h]

/-- C10 witness: a parse failure drives the handler into the rejection
exit, leaving the tracker in the error state without any script sent. -/
theorem generate_rejection_behavior_witness :
    generate_tail (.err "oops") idleState 9 (.error "agent down") =
      ({ idleState with
           status := "error"
           error := some "syntax error during parse: oops"
           last_updated := some 9 },
       .rejected "syntax error during parse: oops", false) ∧
    httpStatus (.rejected "syntax error during parse: oops") = 400 :=
  generate_rejection_behavior (.err "oops") idleState 9 (.error "agent down")
    "syntax error during parse: oops" rfl

end BlenderBridge
